import Mathlib

/-!
Verification development for the workout-plan generation engine in
`backend/workout_planner.py`: the volume target calculator, the plan volume
accountant, the plan validator, the generation/retry loop, and the sanitizer.

Numeric model: Python float arithmetic is embedded as exact arithmetic, in ℚ
where the source only adds/multiplies rationals (volumes, tolerances, target
ranges) and in ℝ where `math.sqrt` appears (the optimal-sets formula).
The Python builtin round(x, 1) is round-half-to-even at one decimal; it is embedded
as `rhe (10 * x) / 10` where `rhe` is round-half-to-even to an integer.
-/

/-- Round half to even (banker rounding), the rounding used by the Python
builtin round.  `round x` in Mathlib is round-half-up; at a tie whose
floor is even, half-to-even returns one less. -/
def rhe {α : Type} [LinearOrderedField α] [FloorRing α] [DecidableEq α] (x : α) : ℤ :=
  round x - if Int.fract x = 1/2 ∧ Even ⌊x⌋ then 1 else 0

section RoundLemmas

variable {α : Type} [LinearOrderedField α] [FloorRing α]

theorem round_of_fract_half {x : α} (h : Int.fract x = 1/2) : round x = ⌊x⌋ + 1 := by
  have hx : x + 1/2 = ((⌊x⌋ + 1 : ℤ) : α) := by
    have hfa := Int.floor_add_fract x
    rw [h] at hfa
    push_cast
    linarith
  rw [round_eq x, hx]
  exact Int.floor_intCast _

theorem round_mono_le {x y : α} (h : x ≤ y) : round x ≤ round y := by
  rw [round_eq, round_eq]; exact Int.floor_le_floor (by linarith)

end RoundLemmas

section RheLemmas

variable {α : Type} [LinearOrderedField α] [FloorRing α] [DecidableEq α]

theorem rhe_le_round (x : α) : rhe x ≤ round x := by
  unfold rhe; split <;> omega

theorem round_sub_one_le_rhe (x : α) : round x - 1 ≤ rhe x := by
  unfold rhe; split <;> omega

theorem floor_le_rhe (x : α) : ⌊x⌋ ≤ rhe x := by
  have hfl : ⌊x⌋ ≤ round x := by
    rw [round_eq]; exact Int.floor_le_floor (by linarith)
  unfold rhe; split
  · next hc => rw [round_of_fract_half hc.1]; omega
  · omega

theorem rhe_nonneg {x : α} (h : 0 ≤ x) : 0 ≤ rhe x := by
  have h1 : (0 : ℤ) ≤ ⌊x⌋ := Int.floor_nonneg.mpr h
  have h2 := floor_le_rhe x
  omega

theorem rhe_mono {x y : α} (h : x ≤ y) : rhe x ≤ rhe y := by
  have hr : round x ≤ round y := round_mono_le h
  by_cases hy : Int.fract y = 1/2 ∧ Even ⌊y⌋
  · rcases lt_or_eq_of_le hr with hlt | heq
    · have h1 := rhe_le_round x
      have h2 := round_sub_one_le_rhe y
      omega
    · have hy2 : y = (⌊y⌋ : α) + 1/2 := by
        have hfa := Int.floor_add_fract y
        rw [hy.1] at hfa; linarith
      have hry : round y = ⌊y⌋ + 1 := round_of_fract_half hy.1
      have hn : (⌊y⌋ + 1 : ℤ) ≤ ⌊x + 1/2⌋ := by
        rw [← round_eq, heq, hry]
      have hcast : ((⌊y⌋ + 1 : ℤ) : α) ≤ x + 1/2 := Int.le_floor.mp hn
      have hxy : y ≤ x := by
        push_cast at hcast
        linarith [hy2]
      have hxe : x = y := le_antisymm h hxy
      rw [hxe]
  · have hye : rhe y = round y := by unfold rhe; rw [if_neg hy]; omega
    have h1 := rhe_le_round x
    omega

theorem rhe_eq_of_bounds {x : α} {n : ℤ} (h1 : (n : α) - 1/2 < x) (h2 : x < (n : α) + 1/2) :
    rhe x = n := by
  have hround : round x = n := by
    rw [round_eq]
    apply Int.floor_eq_iff.mpr
    constructor
    · linarith
    · linarith
  have hfract : ¬ Int.fract x = 1/2 := by
    intro hf
    have hx : x = (⌊x⌋ : α) + 1/2 := by
      have hfa := Int.floor_add_fract x
      rw [hf] at hfa; linarith
    have hrf : round x = ⌊x⌋ + 1 := round_of_fract_half hf
    rw [hround] at hrf
    have hfn : ⌊x⌋ = n - 1 := by omega
    rw [hfn] at hx
    push_cast at hx
    linarith
  unfold rhe
  rw [if_neg (fun hc => hfract hc.1), hround]
  omega

theorem rhe_ratCast (q : ℚ) : rhe ((q : ℝ)) = rhe q := by
  have hfr : Int.fract ((q : ℝ)) = ((Int.fract q : ℚ) : ℝ) := (Rat.cast_fract q).symm
  have hcond : (Int.fract ((q : ℝ)) = 1/2) ↔ (Int.fract q = 1/2) := by
    rw [hfr, show (1/2 : ℝ) = ((1/2 : ℚ) : ℝ) by norm_num, Rat.cast_inj]
  unfold rhe
  rw [Rat.round_cast, Rat.floor_cast]
  simp only [hcond]

end RheLemmas

/-- The Python builtin round(x, 1) on a rational value: round half to even at
the first decimal. -/
def roundQ1 (x : ℚ) : ℚ := (rhe (10 * x) : ℚ) / 10

theorem roundQ1_mono {x y : ℚ} (h : x ≤ y) : roundQ1 x ≤ roundQ1 y := by
  unfold roundQ1
  have := rhe_mono (α := ℚ) (x := 10 * x) (y := 10 * y) (by linarith)
  have hc : ((rhe (10 * x) : ℤ) : ℚ) ≤ ((rhe (10 * y) : ℤ) : ℚ) := by exact_mod_cast this
  linarith

theorem roundQ1_nonneg {x : ℚ} (h : 0 ≤ x) : 0 ≤ roundQ1 x := by
  unfold roundQ1
  have := rhe_nonneg (α := ℚ) (x := 10 * x) (by linarith)
  have hc : (0 : ℚ) ≤ ((rhe (10 * x) : ℤ) : ℚ) := by exact_mod_cast this
  linarith

/-!
Data model from `workout_planner.py`.
-/

/-- Input model for the workout planner (`WorkoutPlannerInput`, lines 9-17).
Fields are embedded untyped-range (ℤ/ℚ/String); the pydantic range checks
performed at construction are the predicate `pydanticAccepts` below. -/
structure WorkoutPlannerInput where
  training_status : ℤ
  sex : ℤ
  recovery_factor : ℚ
  energy_balance_factor : ℚ
  age : ℤ
  training_frequency : ℤ
  dedication_level : String
deriving DecidableEq

/-- Exactly the constraints the pydantic model declares at construction:
Literal types for training_status, sex and dedication_level, ge/le bounds for
recovery_factor, age and training_frequency.  The source declares NO
constraint on energy_balance_factor (line 14). -/
def pydanticAccepts (i : WorkoutPlannerInput) : Prop :=
  (i.training_status = 1 ∨ i.training_status = 2 ∨ i.training_status = 3) ∧
  (i.sex = 0 ∨ i.sex = 1) ∧
  (1/2 ≤ i.recovery_factor ∧ i.recovery_factor ≤ 6/5) ∧
  (10 ≤ i.age ∧ i.age ≤ 100) ∧
  (1 ≤ i.training_frequency ∧ i.training_frequency ≤ 7) ∧
  (i.dedication_level = "A" ∨ i.dedication_level = "B" ∨ i.dedication_level = "C")

instance (i : WorkoutPlannerInput) : Decidable (pydanticAccepts i) := by
  unfold pydanticAccepts; infer_instance

/-- The field ranges the specification declares for PlannerInput, including
`energy_balance_factor > 0`.  Kept separate from `pydanticAccepts` so that the
two can be compared. -/
def specDeclaredRanges (i : WorkoutPlannerInput) : Prop :=
  (i.training_status = 1 ∨ i.training_status = 2 ∨ i.training_status = 3) ∧
  (i.sex = 0 ∨ i.sex = 1) ∧
  (1/2 ≤ i.recovery_factor ∧ i.recovery_factor ≤ 6/5) ∧
  0 < i.energy_balance_factor ∧
  (10 ≤ i.age ∧ i.age ≤ 100) ∧
  (1 ≤ i.training_frequency ∧ i.training_frequency ≤ 7) ∧
  (i.dedication_level = "A" ∨ i.dedication_level = "B" ∨ i.dedication_level = "C")

instance (i : WorkoutPlannerInput) : Decidable (specDeclaredRanges i) := by
  unfold specDeclaredRanges; infer_instance

/-- The pre-rounding value of `calculate_optimal_sets` (lines 183-205):
((freq if freq < 3 else 2.5) * 5) * recovery * energy * sqrt(status)
  * (1 - max(age - 50, 0) / 10 * 0.12) + sex * 3. -/
noncomputable def optimalSetsRaw (i : WorkoutPlannerInput) : ℝ :=
  ((if i.training_frequency < 3 then (i.training_frequency : ℝ) else 5/2) * 5)
      * (i.recovery_factor : ℝ)
    * (i.energy_balance_factor : ℝ)
    * Real.sqrt ((i.training_status : ℤ) : ℝ)
    * (1 - ((max (i.age - 50) 0 : ℤ) : ℝ) / 10 * (12/100))
    + (i.sex : ℝ) * 3

/-- The function calculate_optimal_sets (lines 183-205): the formula above, rounded to
one decimal with Python round (half to even). -/
noncomputable def calculate_optimal_sets (i : WorkoutPlannerInput) : ℚ :=
  (rhe (10 * optimalSetsRaw i) : ℚ) / 10

structure TargetRange where
  min : ℚ
  max : ℚ
deriving DecidableEq

/-- Dedication-level table from `get_target_volume_range` (lines 210-214).
For a level outside A/B/C the Python dict lookup raises KeyError; that case
is unreachable for validated input and is embedded as the pair (0, 0). -/
def dedicationFractions (level : String) : ℚ × ℚ :=
  if level = "A" then (6/10, 75/100)
  else if level = "B" then (75/100, 9/10)
  else if level = "C" then (9/10, 1)
  else (0, 0)

/-- The function get_target_volume_range (lines 207-220). -/
def get_target_volume_range (optimal_sets : ℚ) (dedication_level : String) : TargetRange :=
  ⟨roundQ1 (optimal_sets * (dedicationFractions dedication_level).1),
   roundQ1 (optimal_sets * (dedicationFractions dedication_level).2)⟩

structure ExerciseInfo where
  type : String
  activation : List (String × ℚ)
deriving DecidableEq

/-- The table EXERCISE_DATABASE (lines 50-171), float coefficients as exact rationals. -/
def EXERCISE_DATABASE : List (String × ExerciseInfo) := [
  ("Powerlifting deadlift", ⟨"Compound", [("Traps", 1), ("Lats", 1/4), ("Erector Spine", 1), ("Quadriceps", 1/2), ("Hamstrings", 3/4), ("Glutes", 1), ("Calves", 1/2), ("Abs", 1/4)]⟩),
  ("Romanian deadlifts", ⟨"Compound", [("Traps", 1), ("Lats", 1/4), ("Erector Spine", 1), ("Hamstrings", 1), ("Glutes", 1), ("Abs", 1/4)]⟩),
  ("Goodmornings", ⟨"Compound", [("Erector Spine", 1), ("Hamstrings", 1), ("Glutes", 1), ("Abs", 1/4)]⟩),
  ("Hip extensions & pull-throughs", ⟨"Compound", [("Erector Spine", 1/4), ("Hamstrings", 1), ("Glutes", 1)]⟩),
  ("Back extensions", ⟨"Isolation", [("Erector Spine", 1), ("Hamstrings", 1), ("Glutes", 1)]⟩),
  ("Leg curls", ⟨"Isolation", [("Hamstrings", 1), ("Calves", 1)]⟩),
  ("Barbell squats", ⟨"Compound", [("Erector Spine", 1), ("Quadriceps", 1), ("Glutes", 1), ("Calves", 1/2), ("Abs", 1/4)]⟩),
  ("Leg presses, hack & belt squats", ⟨"Compound", [("Erector Spine", 1/4), ("Quadriceps", 1), ("Glutes", 1), ("Calves", 1/2)]⟩),
  ("Bulgarian split squats", ⟨"Compound", [("Erector Spine", 1/2), ("Quadriceps", 1), ("Glutes", 1), ("Calves", 1/2), ("Abs", 1/4)]⟩),
  ("Lunges & step-ups", ⟨"Compound", [("Erector Spine", 1/2), ("Quadriceps", 1), ("Glutes", 1), ("Calves", 1/2), ("Abs", 1/4)]⟩),
  ("Leg extensions", ⟨"Isolation", [("Quadriceps", 1)]⟩),
  ("Hip thrusts & glute kickbacks", ⟨"Compound", [("Quadriceps", 1/2), ("Glutes", 1)]⟩),
  ("Hip abduction", ⟨"Isolation", [("Glutes", 1)]⟩),
  ("Calf raises/jumps", ⟨"Isolation", [("Calves", 1)]⟩),
  ("Seated calf raises", ⟨"Isolation", [("Calves", 1)]⟩),
  ("Chin-ups & pulldowns", ⟨"Compound", [("Pecs", 1/4), ("Delt", 1), ("Traps", 1), ("Lats", 1), ("Biceps", 1)]⟩),
  ("Pull-ups & wide pulldowns", ⟨"Compound", [("Pecs", 1/2), ("Delt", 1/4), ("Traps", 1), ("Lats", 1), ("Biceps", 1)]⟩),
  ("Cable rows with spinal flexion", ⟨"Compound", [("Delt", 1), ("Traps", 1), ("Lats", 1), ("Biceps", 1/2), ("Triceps", 1/4), ("Erector Spine", 1/2), ("Hamstrings", 1/4), ("Glutes", 1/4)]⟩),
  ("Pull-overs & lat prayers", ⟨"Compound", [("Pecs", 1/2), ("Delt", 1), ("Lats", 1), ("Triceps", 1)]⟩),
  ("High rows & rear delt flys", ⟨"Compound", [("Delt", 1), ("Traps", 1)]⟩),
  ("Barbell bench press", ⟨"Compound", [("Pecs", 1), ("Delt", 1), ("Triceps", 1)]⟩),
  ("Dumbbell bench press", ⟨"Compound", [("Pecs", 1), ("Delt", 1), ("Triceps", 1/2)]⟩),
  ("Chest flys", ⟨"Isolation", [("Pecs", 1), ("Delt", 1)]⟩),
  ("Barbell overhead press", ⟨"Compound", [("Pecs", 1/4), ("Delt", 1), ("Traps", 1/4), ("Triceps", 1), ("Abs", 1/4)]⟩),
  ("Dumbbell overhead press", ⟨"Compound", [("Pecs", 1/4), ("Delt", 1), ("Traps", 1/4), ("Triceps", 1/2), ("Abs", 1/4)]⟩),
  ("Lateral raises", ⟨"Isolation", [("Pecs", 1/4), ("Delt", 1), ("Traps", 1/4)]⟩),
  ("Shrugs", ⟨"Isolation", [("Traps", 1)]⟩),
  ("Triceps extensions", ⟨"Isolation", [("Triceps", 1)]⟩),
  ("Biceps curls", ⟨"Isolation", [("Biceps", 1)]⟩),
  ("Ab crunches", ⟨"Isolation", [("Abs", 1)]⟩)]

/-- The list MUSCLE_GROUPS (line 173). -/
def MUSCLE_GROUPS : List String :=
  ["Pecs", "Delt", "Traps", "Lats", "Biceps", "Triceps", "Erector Spine",
   "Quadriceps", "Hamstrings", "Glutes", "Calves", "Abs"]

/-- One entry of the raw generator JSON: missing keys are `none`
(`dict.get` in the source). The raw muscle_activation value is never read by
the source, so it is not modelled. -/
structure RawExercise where
  exercise_name : Option String
  sets : Option ℤ
  intensity : Option ℤ
deriving DecidableEq

structure RawDay where
  day_name : Option String
  frequency_per_week : Option ℤ
  exercises : List RawExercise
deriving DecidableEq

structure RawWorkoutData where
  workout_days : List RawDay
deriving DecidableEq

/-- Contribution of one exercise entry to one muscle, at a given day
frequency: sets * activation * frequency, with exercises absent from
`EXERCISE_DATABASE` (or with no name) contributing zero
(lines 437-445 and 469-475). -/
def exerciseMuscleVolume (m : String) (freq : ℤ) (ex : RawExercise) : ℚ :=
  match ex.exercise_name with
  | none => 0
  | some nm =>
    match EXERCISE_DATABASE.lookup nm with
    | none => 0
    | some info => ((ex.sets.getD 0 : ℤ) : ℚ) * ((info.activation.lookup m).getD 0) * ((freq : ℤ) : ℚ)

/-- Volume a single day contributes to muscle `m`; a missing
frequency_per_week key defaults to 1 here (lines 435 and 468). -/
def dayMuscleVolume (m : String) (d : RawDay) : ℚ :=
  (d.exercises.map (exerciseMuscleVolume m (d.frequency_per_week.getD 1))).sum

/-- Realized weekly volume for muscle `m` (the shared accumulation loop of
`validate_and_calculate_volumes` and `validate_volume_targets`). -/
def weeklyVolume (m : String) (w : RawWorkoutData) : ℚ :=
  (w.workout_days.map (dayMuscleVolume m)).sum

/-- The VolumeReport: every muscle of MUSCLE_GROUPS with its realized weekly
volume, in order (the dict built at lines 432/464). -/
def volumeReport (w : RawWorkoutData) : List (String × ℚ) :=
  MUSCLE_GROUPS.map (fun m => (m, weeklyVolume m w))

structure WeeklyVolumeSummary where
  muscle_group : String
  weekly_sets : ℚ
deriving DecidableEq

/-- The function validate_and_calculate_volumes (lines 430-452): the volume report with
each value rounded to one decimal. -/
def validate_and_calculate_volumes (w : RawWorkoutData) : List WeeklyVolumeSummary :=
  MUSCLE_GROUPS.map (fun m => ⟨m, roundQ1 (weeklyVolume m w)⟩)

/-- tolerance = 0.30 (line 479). -/
def tolerance : ℚ := 3/10

/-- Muscles classified "way too low": volume < target.min * (1 - tolerance)
(line 489). -/
def wayTooLowList (vols : List (String × ℚ)) (tr : TargetRange) : List (String × ℚ) :=
  vols.filter (fun p => decide (p.2 < tr.min * (1 - tolerance)))

/-- Muscles classified "way too high": not way-too-low (elif) and
volume > target.max * (1 + tolerance) (line 492). -/
def wayTooHighList (vols : List (String × ℚ)) (tr : TargetRange) : List (String × ℚ) :=
  vols.filter (fun p =>
    decide (¬ p.2 < tr.min * (1 - tolerance) ∧ tr.max * (1 + tolerance) < p.2))

/-- Muscles classified "slightly off": within the tolerance band but outside
the target range proper (line 495). -/
def slightlyOffList (vols : List (String × ℚ)) (tr : TargetRange) : List (String × ℚ) :=
  vols.filter (fun p =>
    decide (¬ p.2 < tr.min * (1 - tolerance) ∧ ¬ tr.max * (1 + tolerance) < p.2 ∧
      (p.2 < tr.min ∨ tr.max < p.2)))

/-- Per-muscle exercise suggestions used in the rejection feedback
(lines 507-520). -/
def exercise_suggestions : List (String × String) := [
  ("Quadriceps", "Add Leg extensions or Barbell squats or Leg presses"),
  ("Hamstrings", "Add Leg curls or Romanian deadlifts"),
  ("Glutes", "Add Hip thrusts or Barbell squats or Romanian deadlifts"),
  ("Calves", "Add Calf raises or Seated calf raises"),
  ("Abs", "Add Ab crunches (you can do many sets of this)"),
  ("Biceps", "Add Biceps curls"),
  ("Triceps", "Add Triceps extensions"),
  ("Pecs", "Add Barbell bench press or Dumbbell bench press or Chest flys"),
  ("Delt", "Add Barbell overhead press or Lateral raises"),
  ("Traps", "Add Shrugs or Romanian deadlifts"),
  ("Lats", "Add Pull-ups or Chin-ups"),
  ("Erector Spine", "Add Romanian deadlifts or Barbell squats")]

def deficitLine (tr : TargetRange) (p : String × ℚ) : String :=
  p.1 ++ ": " ++ toString p.2 ++ " sets (needs " ++ toString (tr.min - p.2) ++ " more sets)"

def excessLine (tr : TargetRange) (p : String × ℚ) : String :=
  p.1 ++ ": " ++ toString p.2 ++ " sets (" ++ toString (p.2 - tr.max) ++ " sets too many)"

def offLine (tr : TargetRange) (p : String × ℚ) : String :=
  p.1 ++ ": " ++ toString p.2 ++ " sets (target: " ++ toString tr.min ++ "-" ++ toString tr.max ++ ")"

/-- The rejection feedback text (lines 500-535).  Numeric rendering uses
toString on exact rationals in place of Python float formatting; the textual
skeleton follows the source. -/
def volumeFailureFeedback (vols : List (String × ℚ)) (tr : TargetRange) : String :=
  "VOLUME VALIDATION FAILED - Target range: " ++ toString tr.min ++ "-" ++ toString tr.max
    ++ " sets/week (accepting up to tolerance)\n\n"
  ++ (if wayTooLowList vols tr = [] then "" else
      "WAY TOO LOW (must fix):\n" ++ String.intercalate "\n" ((wayTooLowList vols tr).map (deficitLine tr))
      ++ "\n\nSPECIFIC FIXES NEEDED:\n"
      ++ String.join ((wayTooLowList vols tr).map (fun p =>
           match exercise_suggestions.lookup p.1 with
           | some s => "  - " ++ p.1 ++ ": " ++ s ++ "\n"
           | none => ""))
      ++ "\n")
  ++ (if wayTooHighList vols tr = [] then "" else
      "WAY TOO HIGH (must fix):\n" ++ String.intercalate "\n" ((wayTooHighList vols tr).map (excessLine tr))
      ++ "\n\nSuggestions: Reduce sets or remove some exercises for these muscle groups.\n\n")
  ++ (if slightlyOffList vols tr = [] then "" else
      "Slightly off but acceptable:\n" ++ String.intercalate "\n" ((slightlyOffList vols tr).map (offLine tr))
      ++ "\n\n")
  ++ "IMPORTANT: Focus on fixing the muscles that are WAY off. Regenerate the plan with better balance."

/-- The verdict of `validate_volume_targets` on a computed VolumeReport
(lines 483-541): reject exactly when some muscle is way too low or way too
high; slightly-off muscles are reported but accepted. -/
def volumeVerdict (vols : List (String × ℚ)) (tr : TargetRange) : Bool × String :=
  if wayTooLowList vols tr ≠ [] ∨ wayTooHighList vols tr ≠ [] then
    (false, volumeFailureFeedback vols tr)
  else if slightlyOffList vols tr ≠ [] then
    (true, "Plan acceptable - some muscles slightly off target but within tolerance:\n"
      ++ String.intercalate "\n" ((slightlyOffList vols tr).map (offLine tr)))
  else
    (true, "All muscle groups within target range")

/-- The function validate_volume_targets (lines 454-541): recompute the volume report
from the raw plan, then classify. -/
def validate_volume_targets (w : RawWorkoutData) (tr : TargetRange) : Bool × String :=
  volumeVerdict (volumeReport w) tr

/-!
Generation loop (`call_bedrock_for_workout`, lines 374-428, and
`generate_workout_plan`, lines 543-642).  The external generator is modelled
as a function from (call index, prompt) to a response outcome; the call index
is threaded through the loop so that successive invocations may differ.
-/

/-- Outcome of one generator invocation, after code-fence stripping:
a parsed JSON object, a JSON parse failure, or a transport/client error. -/
inductive GenResponse where
  | unparseable
  | transportFailure
  | parsed (w : RawWorkoutData)
deriving DecidableEq

/-- The distinct exceptions the engine can raise. -/
inductive FatalError where
  | jsonParseFailure
  | bedrockFailure
  | noWorkoutData
  | frequencyExceeded (total userMax : ℤ)
deriving DecidableEq

/-- The corrective directive appended after a parse failure (line 416). -/
def jsonRetryDirective : String :=
  "\n\nIMPORTANT: Your previous response was not valid JSON. Please provide ONLY valid JSON with no additional text or markdown formatting."

/-- The retry loop body of `call_bedrock_for_workout` with `rem` tries left:
parse success returns the payload, a transport/client error raises
immediately, and a parse failure either raises (last try) or appends the
JSON directive and retries. Returns `none` only if invoked with zero tries
(the for-loop body never runs, the function returns None, line 428). -/
def call_bedrock_go (gen : ℕ → String → GenResponse) (prompt : String) (k : ℕ) :
    ℕ → Except FatalError (Option RawWorkoutData × ℕ)
  | 0 => .ok (none, k)
  | r + 1 =>
    match gen k prompt with
    | .parsed w => .ok (some w, k + 1)
    | .transportFailure => .error .bedrockFailure
    | .unparseable =>
      if r = 0 then .error .jsonParseFailure
      else call_bedrock_go gen (prompt ++ jsonRetryDirective) (k + 1) r

/-- The function call_bedrock_for_workout (lines 374-428): max_retries = 3. -/
def call_bedrock_for_workout (gen : ℕ → String → GenResponse) (prompt : String) (k : ℕ) :
    Except FatalError (Option RawWorkoutData × ℕ) :=
  call_bedrock_go gen prompt k 3

/-- Total plan frequency as computed at lines 572-576: missing
frequency_per_week keys count as 0 here. -/
def totalFrequency (w : RawWorkoutData) : ℤ :=
  (w.workout_days.map (fun d => d.frequency_per_week.getD 0)).sum

/-- The banner prepended on retry attempts (line 564). -/
def bannerRule : String := String.mk (List.replicate 50 '=')

def rejectedBanner (attemptNumber : ℕ) : String :=
  "\n\n" ++ bannerRule ++ "\nATTEMPT "
    ++ toString attemptNumber
    ++ " - Your previous plan was REJECTED.\n" ++ bannerRule ++ "\n"

/-- The frequency remediation message appended to the base prompt (line 580). -/
def frequencyErrorText (total userMax : ℤ) : String :=
  "\n\nFREQUENCY ERROR: Your plan has " ++ toString total
    ++ " total days/week which EXCEEDS the max of " ++ toString userMax
    ++ ". You MUST regenerate with total frequency at most " ++ toString userMax ++ "."

/-- Terminal states of the generation loop. -/
inductive LoopOutcome where
  | accepted (w : RawWorkoutData)
  | acceptedWithWarning (w : RawWorkoutData) (feedback : String)
  | failed (e : FatalError)
deriving DecidableEq

/-- The attempt loop of `generate_workout_plan` (lines 558-604), by recursion
on the number of attempts left (5 at the top-level entry).  `attemptIdx` is
the 0-based index of the current attempt (for the retry banner),
`basePrompt` the accumulated instruction text, `k` the generator call index. -/
def generateAttempts (gen : ℕ → String → GenResponse) (training_frequency : ℤ)
    (tr : TargetRange) (basePrompt : String) (k : ℕ) (attemptIdx : ℕ) :
    ℕ → LoopOutcome
  | 0 => .failed .noWorkoutData
  | n + 1 =>
    match call_bedrock_for_workout gen
        (if 0 < attemptIdx then basePrompt ++ rejectedBanner (attemptIdx + 1) else basePrompt) k with
    | .error e => .failed e
    | .ok (none, _) => .failed .noWorkoutData
    | .ok (some w, k') =>
      if training_frequency < totalFrequency w then
        if n = 0 then .failed (.frequencyExceeded (totalFrequency w) training_frequency)
        else generateAttempts gen training_frequency tr
          (basePrompt ++ frequencyErrorText (totalFrequency w) training_frequency) k' (attemptIdx + 1) n
      else
        let verdict := validate_volume_targets w tr
        if verdict.1 then .accepted w
        else if n = 0 then .acceptedWithWarning w verdict.2
        else generateAttempts gen training_frequency tr
          (basePrompt ++ "\n\n" ++ verdict.2) k' (attemptIdx + 1) n

/-- max_attempts = 5 (line 555). -/
def max_attempts : ℕ := 5

/-- A validated exercise entry of the returned plan (`ExerciseSet`,
lines 20-25). -/
structure ExerciseSet where
  exercise_name : String
  sets : ℤ
  intensity : ℤ
  muscle_activation : List (String × ℚ)
deriving DecidableEq

/-- A validated training day of the returned plan (`WorkoutDay`,
lines 28-32). -/
structure WorkoutDay where
  day_name : String
  frequency_per_week : ℤ
  exercises : List ExerciseSet
deriving DecidableEq

/-- Post-loop sanitization of one raw exercise entry (lines 610-626): an
entry whose name is missing or not an EXERCISE_DATABASE key is dropped; a
retained entry keeps its sets (default 0) and intensity (default 60) and
gets the activation map from the database. -/
def sanitizeExercise (ex : RawExercise) : Option ExerciseSet :=
  match ex.exercise_name with
  | none => none
  | some nm =>
    match EXERCISE_DATABASE.lookup nm with
    | none => none
    | some info => some ⟨nm, ex.sets.getD 0, ex.intensity.getD 60, info.activation⟩

/-- Post-loop sanitization of one raw day (lines 608-632): day_name defaults
to "Workout Day", frequency_per_week to 1. -/
def sanitizeDay (d : RawDay) : WorkoutDay :=
  ⟨d.day_name.getD "Workout Day", d.frequency_per_week.getD 1,
   d.exercises.filterMap sanitizeExercise⟩

/-- The sanitized workout_days of the returned plan (lines 606-632). -/
def sanitizePlan (w : RawWorkoutData) : List WorkoutDay :=
  w.workout_days.map sanitizeDay

structure WorkoutPlanOutput where
  estimated_optimal_sets : ℚ
  target_volume_range : TargetRange
  workout_days : List WorkoutDay
  weekly_volume_summary : List WeeklyVolumeSummary
deriving DecidableEq

/-- The base instruction bundle (`generate_workout_prompt`, lines 238-372).
Only the numeric content is embedded; the long instructional prose is not
observed by any downstream computation. -/
def generate_workout_prompt (i : WorkoutPlannerInput) (optimal_sets : ℚ) (tr : TargetRange) : String :=
  "You are an expert fitness coach creating a personalized workout plan."
    ++ " Estimated Optimal Sets Per Muscle Group: " ++ toString optimal_sets
    ++ " Target Volume Range: " ++ toString tr.min ++ " - " ++ toString tr.max
    ++ " sets per week per muscle group."
    ++ " FREQUENCY CONSTRAINT: The sum of ALL frequency_per_week values MUST NOT EXCEED "
    ++ toString i.training_frequency ++ "."

/-- The function generate_workout_plan (lines 543-642): compute optimal sets and target
range once, run the 5-attempt loop, then sanitize the winning candidate and
recompute the weekly volume summary (on the raw candidate, whose unknown
exercises contribute zero). -/
noncomputable def generate_workout_plan (gen : ℕ → String → GenResponse)
    (i : WorkoutPlannerInput) : Except FatalError WorkoutPlanOutput :=
  let optimal_sets := calculate_optimal_sets i
  let tr := get_target_volume_range optimal_sets i.dedication_level
  match generateAttempts gen i.training_frequency tr
      (generate_workout_prompt i optimal_sets tr) 0 0 max_attempts with
  | .failed e => .error e
  | .accepted w => .ok ⟨optimal_sets, tr, sanitizePlan w, validate_and_calculate_volumes w⟩
  | .acceptedWithWarning w _ =>
      .ok ⟨optimal_sets, tr, sanitizePlan w, validate_and_calculate_volumes w⟩

/-!
The Plan Volume Accountant of spec section 4.2, applied to a structured
(sanitized) plan: for every day and every exercise whose name is a catalog
key, realized volume adds sets * coefficient * frequency.  Used to compare
the returned weekly_volume_summary with the accountant run on the sanitized
plan.
-/

def accountantDayVolume (m : String) (d : WorkoutDay) : ℚ :=
  (d.exercises.map (fun ex =>
    match EXERCISE_DATABASE.lookup ex.exercise_name with
    | none => 0
    | some info => ((ex.sets : ℤ) : ℚ) * ((info.activation.lookup m).getD 0) * ((d.frequency_per_week : ℤ) : ℚ))).sum

def accountantVolume (m : String) (days : List WorkoutDay) : ℚ :=
  (days.map (accountantDayVolume m)).sum

def accountantSummary (days : List WorkoutDay) : List WeeklyVolumeSummary :=
  MUSCLE_GROUPS.map (fun m => ⟨m, roundQ1 (accountantVolume m days)⟩)

/-!
Claim theorems.
-/

theorem wayTooLowList_ne_nil_iff (vols : List (String × ℚ)) (tr : TargetRange) :
    wayTooLowList vols tr ≠ [] ↔ ∃ p ∈ vols, p.2 < tr.min * (1 - tolerance) := by
  rw [Ne, wayTooLowList, List.filter_eq_nil_iff]
  push_neg
  simp

theorem wayTooHighList_ne_nil_iff (vols : List (String × ℚ)) (tr : TargetRange) :
    wayTooHighList vols tr ≠ [] ↔
      ∃ p ∈ vols, ¬ p.2 < tr.min * (1 - tolerance) ∧ tr.max * (1 + tolerance) < p.2 := by
  rw [Ne, wayTooHighList, List.filter_eq_nil_iff]
  push_neg
  simp

theorem volumeVerdict_fst_false_iff (vols : List (String × ℚ)) (tr : TargetRange) :
    (volumeVerdict vols tr).1 = false ↔
      (wayTooLowList vols tr ≠ [] ∨ wayTooHighList vols tr ≠ []) := by
  unfold volumeVerdict
  split
  · next h => simpa using h
  · next h =>
    split <;> simpa using h

/-- C1: for every volume report and target range, the Validator rejects iff
some muscle is below target.min * (1 - 0.30) or above target.max * (1 + 0.30);
a volume between a tolerance bound and the target edge is classified slightly
off and never blocks acceptance; and a report whose every muscle sits exactly
at target.min (for a well-formed non-negative range) is accepted with all
three deviation lists empty. -/
theorem C1_validator_rejects_iff_way_off (vols : List (String × ℚ)) (tr : TargetRange) :
    ((volumeVerdict vols tr).1 = false ↔
      ∃ p ∈ vols, p.2 < tr.min * (1 - tolerance) ∨ tr.max * (1 + tolerance) < p.2)
    ∧ (∀ p ∈ vols, ¬ p.2 < tr.min * (1 - tolerance) → ¬ tr.max * (1 + tolerance) < p.2 →
        (p.2 < tr.min ∨ tr.max < p.2) → p ∈ slightlyOffList vols tr)
    ∧ ((∀ p ∈ vols, ¬ (p.2 < tr.min * (1 - tolerance) ∨ tr.max * (1 + tolerance) < p.2)) →
        (volumeVerdict vols tr).1 = true)
    ∧ (0 ≤ tr.min → tr.min ≤ tr.max → (∀ p ∈ vols, p.2 = tr.min) →
        (volumeVerdict vols tr).1 = true ∧ wayTooLowList vols tr = [] ∧
        wayTooHighList vols tr = [] ∧ slightlyOffList vols tr = []) := by
  have hiff : (volumeVerdict vols tr).1 = false ↔
      ∃ p ∈ vols, p.2 < tr.min * (1 - tolerance) ∨ tr.max * (1 + tolerance) < p.2 := by
    rw [volumeVerdict_fst_false_iff, wayTooLowList_ne_nil_iff, wayTooHighList_ne_nil_iff]
    constructor
    · rintro (⟨p, hp, hc⟩ | ⟨p, hp, hc⟩)
      · exact ⟨p, hp, Or.inl hc⟩
      · exact ⟨p, hp, Or.inr hc.2⟩
    · rintro ⟨p, hp, hc | hc⟩
      · exact Or.inl ⟨p, hp, hc⟩
      · by_cases hl : p.2 < tr.min * (1 - tolerance)
        · exact Or.inl ⟨p, hp, hl⟩
        · exact Or.inr ⟨p, hp, hl, hc⟩
  refine ⟨hiff, ?_, ?_, ?_⟩
  · intro p hp h1 h2 h3
    rw [slightlyOffList, List.mem_filter]
    refine ⟨hp, ?_⟩
    simp only [decide_eq_true_eq]
    exact ⟨h1, h2, h3⟩
  · intro h
    cases hb : (volumeVerdict vols tr).1 with
    | false =>
      exfalso
      obtain ⟨p, hp, hc⟩ := hiff.mp hb
      exact h p hp hc
    | true => rfl
  · intro hmin hminmax hall
    have hnone : ∀ p ∈ vols, ¬ (p.2 < tr.min * (1 - tolerance) ∨ tr.max * (1 + tolerance) < p.2) := by
      intro p hp
      have hpv := hall p hp
      rw [hpv, tolerance]
      rintro (hc | hc)
      · nlinarith
      · nlinarith
    refine ⟨?_, ?_, ?_, ?_⟩
    · cases hb : (volumeVerdict vols tr).1 with
      | false =>
        exfalso
        obtain ⟨p, hp, hc⟩ := hiff.mp hb
        exact hnone p hp hc
      | true => rfl
    · rw [wayTooLowList, List.filter_eq_nil_iff]
      intro p hp
      simpa using fun hc => hnone p hp (Or.inl hc)
    · rw [wayTooHighList, List.filter_eq_nil_iff]
      intro p hp
      simp only [decide_eq_true_eq, not_and]
      intro _ hc
      exact hnone p hp (Or.inr hc)
    · rw [slightlyOffList, List.filter_eq_nil_iff]
      intro p hp
      have hpv := hall p hp
      simp only [decide_eq_true_eq, not_and]
      intro _ _
      rw [hpv]
      rintro (hc | hc)
      · exact absurd hc (lt_irrefl _)
      · exact absurd (lt_of_le_of_lt hminmax hc) (lt_irrefl _)

/-- A volume report with every one of the 12 muscles exactly at the lower
target edge 13.3 of the range [13.3, 15.9]. -/
def demoReportAtMin : List (String × ℚ) :=
  [("Pecs", 133/10), ("Delt", 133/10), ("Traps", 133/10), ("Lats", 133/10),
   ("Biceps", 133/10), ("Triceps", 133/10), ("Erector Spine", 133/10),
   ("Quadriceps", 133/10), ("Hamstrings", 133/10), ("Glutes", 133/10),
   ("Calves", 133/10), ("Abs", 133/10)]

def demoRange : TargetRange := ⟨133/10, 159/10⟩

theorem C1_witness :
    (volumeVerdict demoReportAtMin demoRange).1 = true ∧
      wayTooLowList demoReportAtMin demoRange = [] ∧
      wayTooHighList demoReportAtMin demoRange = [] ∧
      slightlyOffList demoReportAtMin demoRange = [] :=
  (C1_validator_rejects_iff_way_off demoReportAtMin demoRange).2.2.2
    (by norm_num [demoRange]) (by norm_num [demoRange])
    (by
      intro p hp
      simp only [demoReportAtMin, List.mem_cons, List.not_mem_nil, or_false] at hp
      rcases hp with rfl | rfl | rfl | rfl | rfl | rfl | rfl | rfl | rfl | rfl | rfl | rfl <;> rfl)

/-- The section-8 scenario input: training_status 2, sex 0, recovery 1.0,
energy balance 1.0, age 30, frequency 4, dedication B. -/
def scenarioInputC2 : WorkoutPlannerInput := ⟨2, 0, 1, 1, 30, 4, "B"⟩

theorem sqrt_two_gt : (1412 : ℝ)/1000 < Real.sqrt 2 := by
  nlinarith [Real.sq_sqrt (show (0:ℝ) ≤ 2 by norm_num), Real.sqrt_nonneg 2]

theorem sqrt_two_lt : Real.sqrt 2 < (1415 : ℝ)/1000 := by
  nlinarith [Real.sq_sqrt (show (0:ℝ) ≤ 2 by norm_num), Real.sqrt_nonneg 2]

theorem scenarioC2_raw : optimalSetsRaw scenarioInputC2 = (25/2) * Real.sqrt 2 := by
  unfold optimalSetsRaw scenarioInputC2
  rw [if_neg (by norm_num)]
  norm_num

theorem scenarioC2_optimal_sets : calculate_optimal_sets scenarioInputC2 = 177/10 := by
  unfold calculate_optimal_sets
  rw [scenarioC2_raw]
  rw [show (10 : ℝ) * ((25/2) * Real.sqrt 2) = 125 * Real.sqrt 2 by ring]
  rw [rhe_eq_of_bounds (n := 177)
    (by nlinarith [sqrt_two_gt]) (by nlinarith [sqrt_two_lt])]
  norm_num

/-- C2: calculate_optimal_sets computes
(effective_frequency * 5) * recovery * energy * sqrt(status) *
(1 - max(age-50,0)/10 * 0.12) + sex * 3 rounded to one decimal, with
effective_frequency = training_frequency below 3 and 2.5 otherwise; the
dedication tiers map to the fractions A:[0.60,0.75], B:[0.75,0.90],
C:[0.90,1.00] of optimal_sets; and the scenario input (status 2, sex 0,
recovery 1, energy 1, age 30, frequency 4, dedication B) yields
optimal_sets = 17.7 and target range [13.3, 15.9]. -/
theorem C2_formula_tiers_and_scenario :
    (∀ i : WorkoutPlannerInput, i.training_frequency < 3 →
      calculate_optimal_sets i =
        (rhe (10 * ((((i.training_frequency : ℤ) : ℝ) * 5) * (i.recovery_factor : ℝ)
          * (i.energy_balance_factor : ℝ) * Real.sqrt ((i.training_status : ℤ) : ℝ)
          * (1 - ((max (i.age - 50) 0 : ℤ) : ℝ) / 10 * (12/100)) + (i.sex : ℝ) * 3)) : ℚ) / 10)
    ∧ (∀ i : WorkoutPlannerInput, ¬ i.training_frequency < 3 →
      calculate_optimal_sets i =
        (rhe (10 * (((5/2 : ℝ) * 5) * (i.recovery_factor : ℝ)
          * (i.energy_balance_factor : ℝ) * Real.sqrt ((i.training_status : ℤ) : ℝ)
          * (1 - ((max (i.age - 50) 0 : ℤ) : ℝ) / 10 * (12/100)) + (i.sex : ℝ) * 3)) : ℚ) / 10)
    ∧ (∀ opt : ℚ,
        get_target_volume_range opt "A" = ⟨roundQ1 (opt * (60/100)), roundQ1 (opt * (75/100))⟩ ∧
        get_target_volume_range opt "B" = ⟨roundQ1 (opt * (75/100)), roundQ1 (opt * (90/100))⟩ ∧
        get_target_volume_range opt "C" = ⟨roundQ1 (opt * (90/100)), roundQ1 (opt * 1)⟩)
    ∧ calculate_optimal_sets scenarioInputC2 = 177/10
    ∧ get_target_volume_range (calculate_optimal_sets scenarioInputC2) "B" = ⟨133/10, 159/10⟩ := by
  refine ⟨?_, ?_, ?_, scenarioC2_optimal_sets, ?_⟩
  · intro i h
    unfold calculate_optimal_sets optimalSetsRaw
    rw [if_pos h]
  · intro i h
    unfold calculate_optimal_sets optimalSetsRaw
    rw [if_neg h]
  · intro opt
    refine ⟨?_, ?_, ?_⟩ <;> simp [get_target_volume_range, dedicationFractions] <;> norm_num
  · rw [scenarioC2_optimal_sets]
    have h1 : roundQ1 ((177 : ℚ)/10 * (75/100)) = 133/10 := by
      unfold roundQ1
      rw [show (10 : ℚ) * (177/10 * (75/100)) = 531/4 by norm_num]
      rw [rhe_eq_of_bounds (n := 133) (by norm_num) (by norm_num)]
      norm_num
    have h2 : roundQ1 ((177 : ℚ)/10 * (9/10)) = 159/10 := by
      unfold roundQ1
      rw [show (10 : ℚ) * (177/10 * (9/10)) = 1593/10 by norm_num]
      rw [rhe_eq_of_bounds (n := 159) (by norm_num) (by norm_num)]
      norm_num
    simp [get_target_volume_range, dedicationFractions]
    exact ⟨h1, h2⟩

theorem C2_witness :
    calculate_optimal_sets scenarioInputC2 =
      (rhe (10 * (((5/2 : ℝ) * 5) * ((scenarioInputC2.recovery_factor : ℚ) : ℝ)
        * ((scenarioInputC2.energy_balance_factor : ℚ) : ℝ)
        * Real.sqrt ((scenarioInputC2.training_status : ℤ) : ℝ)
        * (1 - ((max (scenarioInputC2.age - 50) 0 : ℤ) : ℝ) / 10 * (12/100))
        + ((scenarioInputC2.sex : ℤ) : ℝ) * 3)) : ℚ) / 10 :=
  C2_formula_tiers_and_scenario.2.1 scenarioInputC2 (by decide)

/-- An input with a negative energy balance factor; every other field is in
range. -/
def negativeEbInput : WorkoutPlannerInput := ⟨2, 0, 1, -1, 30, 4, "B"⟩

/-- C3 counterexample: the pydantic model accepts a NON-POSITIVE
energy_balance_factor, because the source declares no constraint on that
field, contradicting the claim that every spec-declared range (including
energy_balance_factor > 0) is checked at construction. -/
theorem C3_counterexample :
    pydanticAccepts negativeEbInput ∧
      negativeEbInput.energy_balance_factor ≤ 0 ∧
      ¬ specDeclaredRanges negativeEbInput := by
  have hacc : pydanticAccepts negativeEbInput := by
    unfold pydanticAccepts negativeEbInput
    refine ⟨Or.inr (Or.inl rfl), Or.inl rfl, ⟨by norm_num, by norm_num⟩,
      ⟨by norm_num, by norm_num⟩, ⟨by norm_num, by norm_num⟩, Or.inr (Or.inl rfl)⟩
  refine ⟨hacc, by norm_num [negativeEbInput], ?_⟩
  intro hspec
  have heb := hspec.2.2.2.1
  norm_num [negativeEbInput] at heb

/-- C3 amended: the construction-time checks coincide with the spec-declared
ranges exactly on inputs with positive energy_balance_factor; the
energy_balance_factor > 0 condition itself is the one spec-declared range
the model does not check. -/
theorem C3_pydantic_checks_all_but_energy_balance :
    ∀ i : WorkoutPlannerInput,
      (0 < i.energy_balance_factor → (pydanticAccepts i ↔ specDeclaredRanges i))
      ∧ (specDeclaredRanges i → pydanticAccepts i) := by
  intro i
  constructor
  · intro h
    unfold pydanticAccepts specDeclaredRanges
    tauto
  · intro h
    unfold pydanticAccepts
    unfold specDeclaredRanges at h
    tauto

theorem C3_witness :
    0 < scenarioInputC2.energy_balance_factor ∧
      (pydanticAccepts scenarioInputC2 ↔ specDeclaredRanges scenarioInputC2) :=
  ⟨by norm_num [scenarioInputC2],
   (C3_pydantic_checks_all_but_energy_balance scenarioInputC2).1
     (by norm_num [scenarioInputC2])⟩

/-!
C4: behaviour of the parse-failure retry budget.
-/

theorem call_bedrock_go_succ (gen : ℕ → String → GenResponse) (p : String) (k r : ℕ) :
    call_bedrock_go gen p k (r + 1) =
      match gen k p with
      | .parsed w => .ok (some w, k + 1)
      | .transportFailure => .error .bedrockFailure
      | .unparseable =>
        if r = 0 then .error .jsonParseFailure
        else call_bedrock_go gen (p ++ jsonRetryDirective) (k + 1) r := rfl

theorem call_bedrock_go_unparseable (gen : ℕ → String → GenResponse) (p : String) (k r : ℕ)
    (h : gen k p = .unparseable) :
    call_bedrock_go gen p k (r + 1) =
      if r = 0 then .error .jsonParseFailure
      else call_bedrock_go gen (p ++ jsonRetryDirective) (k + 1) r := by
  rw [call_bedrock_go_succ, h]

theorem call_bedrock_go_all_unparseable (gen : ℕ → String → GenResponse) :
    ∀ (r k : ℕ) (p : String), (∀ j, j ≤ r → ∀ q, gen (k + j) q = .unparseable) →
      call_bedrock_go gen p k (r + 1) = .error .jsonParseFailure := by
  intro r
  induction r with
  | zero =>
    intro k p h
    rw [call_bedrock_go_unparseable gen p k 0 (by simpa using h 0 (le_refl 0) p)]
    simp
  | succ m ih =>
    intro k p h
    rw [call_bedrock_go_unparseable gen p k (m + 1) (by simpa using h 0 (by omega) p)]
    rw [if_neg (by omega)]
    apply ih (k + 1)
    intro j hj q
    have hh := h (j + 1) (by omega) q
    rwa [show k + (j + 1) = k + 1 + j by omega] at hh

theorem generateAttempts_succ (gen : ℕ → String → GenResponse) (tf : ℤ) (tr : TargetRange)
    (bp : String) (k ai n : ℕ) :
    generateAttempts gen tf tr bp k ai (n + 1) =
      match call_bedrock_for_workout gen
          (if 0 < ai then bp ++ rejectedBanner (ai + 1) else bp) k with
      | .error e => .failed e
      | .ok (none, _) => .failed .noWorkoutData
      | .ok (some w, k') =>
        if tf < totalFrequency w then
          if n = 0 then .failed (.frequencyExceeded (totalFrequency w) tf)
          else generateAttempts gen tf tr
            (bp ++ frequencyErrorText (totalFrequency w) tf) k' (ai + 1) n
        else
          if (validate_volume_targets w tr).1 then .accepted w
          else if n = 0 then .acceptedWithWarning w (validate_volume_targets w tr).2
          else generateAttempts gen tf tr
            (bp ++ "\n\n" ++ (validate_volume_targets w tr).2) k' (ai + 1) n := rfl

/-- C4 amended: a parse failure makes the generator-call helper append the
structured-output directive and retry, but only within the helper budget of
max_retries = 3 per call; three consecutive parse failures within one call
are fatal for the whole request, regardless of how many of the 5 outer
attempts remain. -/
theorem C4_parse_retry_inner_budget :
    (∀ (gen : ℕ → String → GenResponse) (p : String) (k r : ℕ),
      gen k p = .unparseable →
        call_bedrock_go gen p k (r + 2) =
          call_bedrock_go gen (p ++ jsonRetryDirective) (k + 1) (r + 1))
    ∧ (∀ (gen : ℕ → String → GenResponse) (k : ℕ),
        (∀ j, j < 3 → ∀ q, gen (k + j) q = .unparseable) →
        ∀ prompt, call_bedrock_for_workout gen prompt k = .error .jsonParseFailure)
    ∧ (∀ (gen : ℕ → String → GenResponse) (tf : ℤ) (tr : TargetRange) (bp : String) (k ai n : ℕ),
        (∀ j, j < 3 → ∀ q, gen (k + j) q = .unparseable) →
        generateAttempts gen tf tr bp k ai (n + 1) = .failed .jsonParseFailure) := by
  have hcall : ∀ (gen : ℕ → String → GenResponse) (k : ℕ),
      (∀ j, j < 3 → ∀ q, gen (k + j) q = .unparseable) →
      ∀ prompt, call_bedrock_for_workout gen prompt k = .error .jsonParseFailure := by
    intro gen k h prompt
    unfold call_bedrock_for_workout
    exact call_bedrock_go_all_unparseable gen 2 k prompt (fun j hj q => h j (by omega) q)
  refine ⟨?_, hcall, ?_⟩
  · intro gen p k r h
    rw [call_bedrock_go_unparseable gen p k (r + 1) h, if_neg (by omega)]
  · intro gen tf tr bp k ai n h
    rw [generateAttempts_succ, hcall gen k h]

/-- A syntactically valid candidate plan: one day, once a week, three sets of
a catalog exercise. -/
def goodDemoPlan : RawWorkoutData :=
  ⟨[⟨some "Day A", some 1, [⟨some "Biceps curls", some 3, some 60⟩]⟩]⟩

/-- A wide target range that `goodDemoPlan` satisfies. -/
def demoWideRange : TargetRange := ⟨0, 1000⟩

/-- A generator whose first three responses are unparseable and which then
produces a valid plan on every later call. -/
def genParseFailuresThenGood : ℕ → String → GenResponse :=
  fun k _ => if k < 3 then .unparseable else .parsed goodDemoPlan

/-- The volume report of `goodDemoPlan`: three weekly sets of Biceps, zero
elsewhere. -/
theorem goodDemoPlan_report :
    volumeReport goodDemoPlan =
      [("Pecs", 0), ("Delt", 0), ("Traps", 0), ("Lats", 0), ("Biceps", 3), ("Triceps", 0),
       ("Erector Spine", 0), ("Quadriceps", 0), ("Hamstrings", 0), ("Glutes", 0),
       ("Calves", 0), ("Abs", 0)] := by
  simp [volumeReport, MUSCLE_GROUPS, weeklyVolume, dayMuscleVolume, exerciseMuscleVolume,
    goodDemoPlan, EXERCISE_DATABASE, List.lookup]

theorem goodDemoPlan_passes_wide :
    validate_volume_targets goodDemoPlan demoWideRange =
      (true, "All muscle groups within target range") := by
  unfold validate_volume_targets
  rw [goodDemoPlan_report]
  norm_num [volumeVerdict, wayTooLowList, wayTooHighList, slightlyOffList, demoWideRange,
    tolerance, List.filter]

/-- C4 counterexample: with three unparseable responses the request fails
with the parse-failure exception during the FIRST of the five outer attempts
(five attempts still budgeted), even though the very next generator response
is a plan that passes both the frequency ceiling and the volume validation. -/
theorem C4_counterexample :
    generateAttempts genParseFailuresThenGood 3 demoWideRange "" 0 0 5 =
        .failed .jsonParseFailure
      ∧ genParseFailuresThenGood 3 "" = .parsed goodDemoPlan
      ∧ totalFrequency goodDemoPlan ≤ 3
      ∧ (validate_volume_targets goodDemoPlan demoWideRange).1 = true := by
  refine ⟨rfl, rfl, by decide, ?_⟩
  rw [goodDemoPlan_passes_wide]

theorem C4_witness :
    generateAttempts genParseFailuresThenGood 3 demoWideRange "base" 0 0 5 =
      .failed .jsonParseFailure :=
  C4_parse_retry_inner_budget.2.2 genParseFailuresThenGood 3 demoWideRange "base" 0 0 4
    (by
      intro j hj q
      simp only [genParseFailuresThenGood, Nat.zero_add]
      rw [if_pos hj])

/-- The plan carried by a terminal loop state, if any. -/
def outcomePlan : LoopOutcome → Option RawWorkoutData
  | .accepted w => some w
  | .acceptedWithWarning w _ => some w
  | .failed _ => none

/-- C5: a candidate whose total frequency exceeds training_frequency is
rejected before any volume consideration — fatally, with the dedicated
frequencyExceeded error, on the final attempt — and consequently any plan
the loop terminates with (accepted or accepted-with-warning) satisfies
total frequency_per_week ≤ training_frequency. -/
theorem C5_frequency_ceiling_invariant :
    (∀ (gen : ℕ → String → GenResponse) (tf : ℤ) (tr : TargetRange) (bp : String)
       (k ai n : ℕ) (w : RawWorkoutData),
      outcomePlan (generateAttempts gen tf tr bp k ai n) = some w →
      totalFrequency w ≤ tf)
    ∧ (∀ (gen : ℕ → String → GenResponse) (tf : ℤ) (tr : TargetRange) (bp : String)
        (k ai : ℕ) (w : RawWorkoutData) (k' : ℕ),
        call_bedrock_for_workout gen
            (if 0 < ai then bp ++ rejectedBanner (ai + 1) else bp) k = .ok (some w, k') →
        tf < totalFrequency w →
        generateAttempts gen tf tr bp k ai 1 =
          .failed (.frequencyExceeded (totalFrequency w) tf)) := by
  constructor
  · intro gen tf tr bp k ai n
    induction n generalizing bp k ai with
    | zero =>
      intro w h
      simp [generateAttempts, outcomePlan] at h
    | succ m ih =>
      intro w h
      rw [generateAttempts_succ] at h
      revert h
      split
      · intro h; simp [outcomePlan] at h
      · intro h; simp [outcomePlan] at h
      · next w0 k' heq =>
        by_cases hf : tf < totalFrequency w0
        · rw [if_pos hf]
          by_cases hm : m = 0
          · subst hm
            rw [if_pos rfl]
            intro h; simp [outcomePlan] at h
          · rw [if_neg hm]
            exact ih _ _ _ w
        · rw [if_neg hf]
          push_neg at hf
          by_cases hv : (validate_volume_targets w0 tr).1 = true
          · rw [if_pos hv]
            intro h
            simp only [outcomePlan, Option.some.injEq] at h
            rw [← h]
            exact hf
          · rw [if_neg hv]
            by_cases hm : m = 0
            · subst hm
              rw [if_pos rfl]
              intro h
              simp only [outcomePlan, Option.some.injEq] at h
              rw [← h]
              exact hf
            · rw [if_neg hm]
              exact ih _ _ _ w
  · intro gen tf tr bp k ai w k' hcall hf
    rw [show (1 : ℕ) = 0 + 1 from rfl, generateAttempts_succ, hcall]
    simp [hf]

/-- A generator that always answers with `goodDemoPlan`. -/
def genAlwaysGood : ℕ → String → GenResponse := fun _ _ => .parsed goodDemoPlan

theorem genAlwaysGood_run :
    generateAttempts genAlwaysGood 3 demoWideRange "" 0 0 5 = .accepted goodDemoPlan := by
  rw [show (5 : ℕ) = 4 + 1 from rfl, generateAttempts_succ]
  rw [show call_bedrock_for_workout genAlwaysGood
      (if 0 < 0 then "" ++ rejectedBanner (0 + 1) else "") 0 =
      .ok (some goodDemoPlan, 0 + 1) from rfl]
  have hfreq : ¬ (3 : ℤ) < totalFrequency goodDemoPlan := by decide
  have hval : (validate_volume_targets goodDemoPlan demoWideRange).1 = true := by
    rw [goodDemoPlan_passes_wide]
  simp [hfreq, hval]

theorem C5_witness :
    outcomePlan (generateAttempts genAlwaysGood 3 demoWideRange "" 0 0 5) =
        some goodDemoPlan
      ∧ totalFrequency goodDemoPlan ≤ 3 :=
  ⟨by rw [genAlwaysGood_run]; rfl,
   C5_frequency_ceiling_invariant.1 genAlwaysGood 3 demoWideRange "" 0 0 5 goodDemoPlan
     (by rw [genAlwaysGood_run]; rfl)⟩

/-- C6: on the final attempt, a candidate that parses and satisfies the
frequency ceiling but fails the volume validation is returned as
acceptedWithWarning carrying the remediation text, and the top-level entry
turns that warning outcome into a successful result. -/
theorem C6_budget_exhaustion_accepts_with_warning :
    (∀ (gen : ℕ → String → GenResponse) (tf : ℤ) (tr : TargetRange) (bp : String)
       (k ai : ℕ) (w : RawWorkoutData) (k' : ℕ),
      call_bedrock_for_workout gen
          (if 0 < ai then bp ++ rejectedBanner (ai + 1) else bp) k = .ok (some w, k') →
      ¬ tf < totalFrequency w →
      (validate_volume_targets w tr).1 = false →
      generateAttempts gen tf tr bp k ai 1 =
        .acceptedWithWarning w (validate_volume_targets w tr).2)
    ∧ (∀ (gen : ℕ → String → GenResponse) (i : WorkoutPlannerInput) (w : RawWorkoutData)
        (fb : String),
        generateAttempts gen i.training_frequency
            (get_target_volume_range (calculate_optimal_sets i) i.dedication_level)
            (generate_workout_prompt i (calculate_optimal_sets i)
              (get_target_volume_range (calculate_optimal_sets i) i.dedication_level))
            0 0 max_attempts = .acceptedWithWarning w fb →
        generate_workout_plan gen i =
          .ok ⟨calculate_optimal_sets i,
               get_target_volume_range (calculate_optimal_sets i) i.dedication_level,
               sanitizePlan w, validate_and_calculate_volumes w⟩) := by
  constructor
  · intro gen tf tr bp k ai w k' hcall hf hv
    rw [show (1 : ℕ) = 0 + 1 from rfl, generateAttempts_succ, hcall]
    simp [hf, hv]
  · intro gen i w fb h
    simp only [generate_workout_plan]
    rw [h]

/-- The 13.3-15.9 range from the C2 scenario rejects `goodDemoPlan` (Biceps
at 3 weekly sets is way below 13.3 * 0.7). -/
theorem goodDemoPlan_fails_narrow :
    (validate_volume_targets goodDemoPlan demoRange).1 = false := by
  unfold validate_volume_targets
  rw [goodDemoPlan_report]
  norm_num [volumeVerdict, wayTooLowList, wayTooHighList, slightlyOffList, demoRange,
    tolerance, List.filter]
  simp

theorem C6_witness :
    generateAttempts genAlwaysGood 3 demoRange "" 0 0 1 =
      .acceptedWithWarning goodDemoPlan
        (validate_volume_targets goodDemoPlan demoRange).2 :=
  C6_budget_exhaustion_accepts_with_warning.1 genAlwaysGood 3 demoRange "" 0 0
    goodDemoPlan 1 rfl (by decide) goodDemoPlan_fails_narrow

theorem optimalSets_factors_nonneg (i : WorkoutPlannerInput) (h : specDeclaredRanges i) :
    (0 : ℝ) ≤ (if i.training_frequency < 3 then (i.training_frequency : ℝ) else 5/2) * 5
    ∧ (0 : ℝ) ≤ (i.recovery_factor : ℝ)
    ∧ (0 : ℝ) ≤ (i.energy_balance_factor : ℝ)
    ∧ (0 : ℝ) ≤ 1 - ((max (i.age - 50) 0 : ℤ) : ℝ) / 10 * (12/100)
    ∧ (0 : ℝ) ≤ (i.sex : ℝ) * 3 := by
  obtain ⟨hts, hsex, ⟨hr1, hr2⟩, heb, ⟨ha1, ha2⟩, ⟨hf1, hf2⟩, hded⟩ := h
  refine ⟨?_, ?_, ?_, ?_, ?_⟩
  · split
    · have h1 : ((1 : ℤ) : ℝ) ≤ (i.training_frequency : ℝ) := by exact_mod_cast hf1
      push_cast at h1
      linarith
    · norm_num
  · have h1 : ((1 : ℚ) / 2 : ℚ) ≤ i.recovery_factor := hr1
    have h2 : (((1 : ℚ)/2 : ℚ) : ℝ) ≤ (i.recovery_factor : ℝ) := by exact_mod_cast h1
    push_cast at h2
    linarith
  · have h1 : ((0 : ℚ) : ℝ) < (i.energy_balance_factor : ℝ) := by exact_mod_cast heb
    push_cast at h1
    linarith
  · have hm : (max (i.age - 50) 0 : ℤ) ≤ 50 := by omega
    have hm2 : ((max (i.age - 50) 0 : ℤ) : ℝ) ≤ 50 := by exact_mod_cast hm
    linarith
  · rcases hsex with h | h <;> rw [h] <;> norm_num

theorem optimalSetsRaw_nonneg (i : WorkoutPlannerInput) (h : specDeclaredRanges i) :
    0 ≤ optimalSetsRaw i := by
  obtain ⟨hA, hrec, heb, hage, hsex⟩ := optimalSets_factors_nonneg i h
  unfold optimalSetsRaw
  have hsq := Real.sqrt_nonneg ((i.training_status : ℤ) : ℝ)
  have := mul_nonneg (mul_nonneg (mul_nonneg (mul_nonneg hA hrec) heb) hsq) hage
  linarith

theorem calculate_optimal_sets_nonneg (i : WorkoutPlannerInput) (h : specDeclaredRanges i) :
    0 ≤ calculate_optimal_sets i := by
  unfold calculate_optimal_sets
  have hraw := optimalSetsRaw_nonneg i h
  have hz := rhe_nonneg (α := ℝ) (x := 10 * optimalSetsRaw i) (by linarith)
  have hc : (0 : ℚ) ≤ ((rhe (10 * optimalSetsRaw i) : ℤ) : ℚ) := by exact_mod_cast hz
  linarith

theorem roundQ1_zero : roundQ1 0 = 0 := by
  unfold roundQ1
  rw [show (10 : ℚ) * 0 = 0 by ring]
  rw [rhe_eq_of_bounds (n := 0) (by norm_num) (by norm_num)]
  norm_num

/-- An input valid per the spec ranges whose energy balance factor is tiny:
0.001. -/
def tinyEbInput : WorkoutPlannerInput := ⟨1, 0, 1/2, 1/1000, 30, 1, "A"⟩

theorem tinyEb_raw : optimalSetsRaw tinyEbInput = 1/400 := by
  unfold optimalSetsRaw tinyEbInput
  rw [if_pos (by norm_num)]
  norm_num [Real.sqrt_one]

theorem tinyEb_opt : calculate_optimal_sets tinyEbInput = 0 := by
  unfold calculate_optimal_sets
  rw [tinyEb_raw]
  rw [show (10 : ℝ) * (1/400) = 1/40 by norm_num]
  rw [rhe_eq_of_bounds (n := 0) (by norm_num) (by norm_num)]
  norm_num

/-- C7 counterexample: for the spec-valid input (status 1, sex 0, recovery
0.5, energy balance 0.001, age 30, frequency 1, dedication A), optimal_sets
rounds to 0.0 and both target bounds round to 0.0, so the claimed STRICT
inequality target_range.min < target_range.max fails. -/
theorem C7_counterexample :
    specDeclaredRanges tinyEbInput ∧
      ¬ ((get_target_volume_range (calculate_optimal_sets tinyEbInput)
            tinyEbInput.dedication_level).min <
         (get_target_volume_range (calculate_optimal_sets tinyEbInput)
            tinyEbInput.dedication_level).max) := by
  constructor
  · unfold specDeclaredRanges tinyEbInput
    refine ⟨Or.inl rfl, Or.inl rfl, ⟨le_refl _, by norm_num⟩, by norm_num,
      ⟨by norm_num, by norm_num⟩, ⟨by norm_num, by norm_num⟩, Or.inl rfl⟩
  · rw [tinyEb_opt]
    have hz : ∀ c : ℚ, roundQ1 (0 * c) = 0 := by
      intro c
      rw [zero_mul]
      exact roundQ1_zero
    simp [get_target_volume_range, tinyEbInput, dedicationFractions, hz]

/-- C7 amended: for every spec-valid input the computed target range
satisfies min ≤ max with both bounds non-negative (the strict inequality of
the original claim can fail when both bounds round to the same value). -/
theorem C7_target_range_ordered_nonneg (i : WorkoutPlannerInput)
    (h : specDeclaredRanges i) :
    (get_target_volume_range (calculate_optimal_sets i) i.dedication_level).min ≤
      (get_target_volume_range (calculate_optimal_sets i) i.dedication_level).max
    ∧ 0 ≤ (get_target_volume_range (calculate_optimal_sets i) i.dedication_level).min
    ∧ 0 ≤ (get_target_volume_range (calculate_optimal_sets i) i.dedication_level).max := by
  have hopt := calculate_optimal_sets_nonneg i h
  have hded := h.2.2.2.2.2.2
  have hfr : 0 ≤ (dedicationFractions i.dedication_level).1 ∧
      (dedicationFractions i.dedication_level).1 ≤ (dedicationFractions i.dedication_level).2 := by
    rcases hded with hd | hd | hd <;> rw [hd] <;> unfold dedicationFractions
    · rw [if_pos rfl]; norm_num
    · rw [if_neg (by decide), if_pos rfl]; norm_num
    · rw [if_neg (by decide), if_neg (by decide), if_pos rfl]; norm_num
  unfold get_target_volume_range
  refine ⟨roundQ1_mono ?_, roundQ1_nonneg ?_, roundQ1_nonneg ?_⟩
  · exact mul_le_mul_of_nonneg_left hfr.2 hopt
  · exact mul_nonneg hopt hfr.1
  · exact mul_nonneg hopt (le_trans hfr.1 hfr.2)

theorem scenario_spec_valid : specDeclaredRanges scenarioInputC2 := by
  unfold specDeclaredRanges scenarioInputC2
  refine ⟨Or.inr (Or.inl rfl), Or.inl rfl, ⟨by norm_num, by norm_num⟩, by norm_num,
    ⟨by norm_num, by norm_num⟩, ⟨by norm_num, by norm_num⟩, Or.inr (Or.inl rfl)⟩

theorem C7_witness :
    (get_target_volume_range (calculate_optimal_sets scenarioInputC2)
        scenarioInputC2.dedication_level).min ≤
      (get_target_volume_range (calculate_optimal_sets scenarioInputC2)
        scenarioInputC2.dedication_level).max
    ∧ 0 ≤ (get_target_volume_range (calculate_optimal_sets scenarioInputC2)
        scenarioInputC2.dedication_level).min
    ∧ 0 ≤ (get_target_volume_range (calculate_optimal_sets scenarioInputC2)
        scenarioInputC2.dedication_level).max :=
  C7_target_range_ordered_nonneg scenarioInputC2 scenario_spec_valid

theorem calculate_optimal_sets_mono_raw {i j : WorkoutPlannerInput}
    (h : optimalSetsRaw i ≤ optimalSetsRaw j) :
    calculate_optimal_sets i ≤ calculate_optimal_sets j := by
  unfold calculate_optimal_sets
  have hm := rhe_mono (α := ℝ) (x := 10 * optimalSetsRaw i) (y := 10 * optimalSetsRaw j)
    (by linarith)
  have hc : ((rhe (10 * optimalSetsRaw i) : ℤ) : ℚ) ≤
      ((rhe (10 * optimalSetsRaw j) : ℤ) : ℚ) := by exact_mod_cast hm
  linarith

/-- C8: calculate_optimal_sets is monotonically non-decreasing in
recovery_factor, in energy_balance_factor and in training_status, holding
the other fields fixed, for spec-valid inputs; the one-decimal rounding
preserves the monotonicity. -/
theorem C8_optimal_sets_monotone :
    (∀ (i : WorkoutPlannerInput) (r : ℚ), specDeclaredRanges i →
      i.recovery_factor ≤ r →
      calculate_optimal_sets i ≤ calculate_optimal_sets { i with recovery_factor := r })
    ∧ (∀ (i : WorkoutPlannerInput) (e : ℚ), specDeclaredRanges i →
      i.energy_balance_factor ≤ e →
      calculate_optimal_sets i ≤ calculate_optimal_sets { i with energy_balance_factor := e })
    ∧ (∀ (i : WorkoutPlannerInput) (t : ℤ), specDeclaredRanges i →
      i.training_status ≤ t →
      calculate_optimal_sets i ≤ calculate_optimal_sets { i with training_status := t }) := by
  refine ⟨?_, ?_, ?_⟩
  · intro i r h hr
    obtain ⟨hA, hrec, heb, hage, hsex⟩ := optimalSets_factors_nonneg i h
    apply calculate_optimal_sets_mono_raw
    unfold optimalSetsRaw
    dsimp only
    have hcast : (i.recovery_factor : ℝ) ≤ (r : ℝ) := by exact_mod_cast hr
    apply add_le_add_right
    apply mul_le_mul_of_nonneg_right _ hage
    apply mul_le_mul_of_nonneg_right _ (Real.sqrt_nonneg _)
    apply mul_le_mul_of_nonneg_right _ heb
    exact mul_le_mul_of_nonneg_left hcast hA
  · intro i e h he
    obtain ⟨hA, hrec, heb, hage, hsex⟩ := optimalSets_factors_nonneg i h
    apply calculate_optimal_sets_mono_raw
    unfold optimalSetsRaw
    dsimp only
    have hcast : (i.energy_balance_factor : ℝ) ≤ (e : ℝ) := by exact_mod_cast he
    apply add_le_add_right
    apply mul_le_mul_of_nonneg_right _ hage
    apply mul_le_mul_of_nonneg_right _ (Real.sqrt_nonneg _)
    exact mul_le_mul_of_nonneg_left hcast (mul_nonneg hA hrec)
  · intro i t h ht
    obtain ⟨hA, hrec, heb, hage, hsex⟩ := optimalSets_factors_nonneg i h
    apply calculate_optimal_sets_mono_raw
    unfold optimalSetsRaw
    dsimp only
    have hcast : ((i.training_status : ℤ) : ℝ) ≤ ((t : ℤ) : ℝ) := by exact_mod_cast ht
    apply add_le_add_right
    apply mul_le_mul_of_nonneg_right _ hage
    exact mul_le_mul_of_nonneg_left (Real.sqrt_le_sqrt hcast)
      (mul_nonneg (mul_nonneg hA hrec) heb)

theorem C8_witness :
    calculate_optimal_sets scenarioInputC2 ≤
      calculate_optimal_sets { scenarioInputC2 with recovery_factor := 6/5 } :=
  C8_optimal_sets_monotone.1 scenarioInputC2 (6/5) scenario_spec_valid
    (by norm_num [scenarioInputC2])

theorem sanitizeExercise_eq_some {ex : RawExercise} {e : ExerciseSet}
    (h : sanitizeExercise ex = some e) :
    ∃ nm info, ex.exercise_name = some nm ∧ EXERCISE_DATABASE.lookup nm = some info ∧
      e = ⟨nm, ex.sets.getD 0, ex.intensity.getD 60, info.activation⟩ := by
  unfold sanitizeExercise at h
  split at h
  · simp at h
  · rename_i nm hname
    split at h
    · simp at h
    · rename_i info hlook
      simp only [Option.some.injEq] at h
      exact ⟨nm, info, hname, hlook, h.symm⟩

theorem sanitizeExercise_of_known {ex : RawExercise} {nm : String} {info : ExerciseInfo}
    (hname : ex.exercise_name = some nm)
    (hlook : EXERCISE_DATABASE.lookup nm = some info) :
    sanitizeExercise ex =
      some ⟨nm, ex.sets.getD 0, ex.intensity.getD 60, info.activation⟩ := by
  simp [sanitizeExercise, hname, hlook]

theorem sum_exercise_volumes (m : String) (freq : ℤ) (l : List RawExercise) :
    (l.map (exerciseMuscleVolume m freq)).sum =
      ((l.filterMap sanitizeExercise).map (fun ex =>
        match EXERCISE_DATABASE.lookup ex.exercise_name with
        | none => 0
        | some info =>
          ((ex.sets : ℤ) : ℚ) * ((info.activation.lookup m).getD 0) * ((freq : ℤ) : ℚ))).sum := by
  induction l with
  | nil => rfl
  | cons ex l ih =>
    rw [List.map_cons, List.sum_cons, List.filterMap_cons]
    rcases hname : ex.exercise_name with _ | nm
    · rw [show sanitizeExercise ex = none by simp [sanitizeExercise, hname]]
      rw [show exerciseMuscleVolume m freq ex = 0 by simp [exerciseMuscleVolume, hname]]
      rw [ih, zero_add]
    · rcases hlook : EXERCISE_DATABASE.lookup nm with _ | info
      · rw [show sanitizeExercise ex = none by simp [sanitizeExercise, hname, hlook]]
        rw [show exerciseMuscleVolume m freq ex = 0 by
          simp [exerciseMuscleVolume, hname, hlook]]
        rw [ih, zero_add]
      · rw [sanitizeExercise_of_known hname hlook]
        rw [List.map_cons, List.sum_cons, ih]
        congr 1
        simp [exerciseMuscleVolume, hname, hlook]

theorem dayMuscleVolume_sanitized (m : String) (d : RawDay) :
    dayMuscleVolume m d = accountantDayVolume m (sanitizeDay d) := by
  unfold dayMuscleVolume accountantDayVolume sanitizeDay
  exact sum_exercise_volumes m (d.frequency_per_week.getD 1) d.exercises

theorem weeklyVolume_sanitized (m : String) (w : RawWorkoutData) :
    weeklyVolume m w = accountantVolume m (sanitizePlan w) := by
  unfold weeklyVolume accountantVolume sanitizePlan
  rw [List.map_map]
  apply congrArg
  apply List.map_congr_left
  intro d _
  exact dayMuscleVolume_sanitized m d

/-- C9: the sanitizer keeps exactly the exercises whose names are catalog
keys (silently dropping the rest), never invents exercise names, never
alters the sets or intensity of a retained exercise, and the returned
weekly_volume_summary equals the Accountant (spec 4.2) run on the sanitized
plan, so the returned numbers reflect only catalog-known exercises. -/
theorem C9_sanitizer_correct (w : RawWorkoutData) :
    (∀ d ∈ w.workout_days, ∀ ex ∈ (sanitizeDay d).exercises,
      (EXERCISE_DATABASE.lookup ex.exercise_name).isSome = true
      ∧ ∃ rawEx ∈ d.exercises, rawEx.exercise_name = some ex.exercise_name
          ∧ ex.sets = rawEx.sets.getD 0 ∧ ex.intensity = rawEx.intensity.getD 60)
    ∧ (∀ d ∈ w.workout_days, ∀ rawEx ∈ d.exercises, ∀ nm info,
        rawEx.exercise_name = some nm → EXERCISE_DATABASE.lookup nm = some info →
        (⟨nm, rawEx.sets.getD 0, rawEx.intensity.getD 60, info.activation⟩ : ExerciseSet)
          ∈ (sanitizeDay d).exercises)
    ∧ validate_and_calculate_volumes w = accountantSummary (sanitizePlan w) := by
  refine ⟨?_, ?_, ?_⟩
  · intro d _ ex hex
    simp only [sanitizeDay, List.mem_filterMap] at hex
    obtain ⟨rawEx, hraw, hsan⟩ := hex
    obtain ⟨nm, info, hname, hlook, he⟩ := sanitizeExercise_eq_some hsan
    subst he
    exact ⟨by rw [hlook]; rfl, rawEx, hraw, hname, rfl, rfl⟩
  · intro d _ rawEx hraw nm info hname hlook
    simp only [sanitizeDay, List.mem_filterMap]
    exact ⟨rawEx, hraw, sanitizeExercise_of_known hname hlook⟩
  · unfold validate_and_calculate_volumes accountantSummary
    apply List.map_congr_left
    intro m _
    rw [weeklyVolume_sanitized m w]

/-- A raw plan mixing a catalog exercise, an unknown exercise name and a
nameless entry. -/
def mixedPlan : RawWorkoutData :=
  ⟨[⟨some "Day A", some 2,
     [⟨some "Biceps curls", some 3, some 65⟩,
      ⟨some "Underwater basket weaving", some 4, some 60⟩,
      ⟨none, some 2, none⟩]⟩]⟩

theorem C9_witness :
    (⟨"Biceps curls", 3, 65, [("Biceps", 1)]⟩ : ExerciseSet) ∈
      (sanitizeDay ⟨some "Day A", some 2,
        [⟨some "Biceps curls", some 3, some 65⟩,
         ⟨some "Underwater basket weaving", some 4, some 60⟩,
         ⟨none, some 2, none⟩]⟩).exercises :=
  (C9_sanitizer_correct mixedPlan).2.1
    ⟨some "Day A", some 2,
      [⟨some "Biceps curls", some 3, some 65⟩,
       ⟨some "Underwater basket weaving", some 4, some 60⟩,
       ⟨none, some 2, none⟩]⟩
    (by simp [mixedPlan])
    ⟨some "Biceps curls", some 3, some 65⟩
    (by simp)
    "Biceps curls" ⟨"Isolation", [("Biceps", 1)]⟩ rfl rfl

/-- The same raw plan with each per-day frequency_per_week replaced by an
explicit 1. -/
def setFreqOne (w : RawWorkoutData) : RawWorkoutData :=
  ⟨w.workout_days.map (fun d => ⟨d.day_name, some 1, d.exercises⟩)⟩

/-- C10: a workout day that omits frequency_per_week counts as 0 in the
frequency-ceiling check (so a plan of only such days passes the check for
every valid training_frequency) but counts as 1 in the volume accounting
(validation pass and final summary) and in the sanitized output. -/
theorem C10_missing_frequency_asymmetry (w : RawWorkoutData)
    (h : ∀ d ∈ w.workout_days, d.frequency_per_week = none) :
    totalFrequency w = 0
    ∧ (∀ tf : ℤ, 1 ≤ tf → ¬ tf < totalFrequency w)
    ∧ (∀ m, weeklyVolume m w = weeklyVolume m (setFreqOne w))
    ∧ volumeReport w = volumeReport (setFreqOne w)
    ∧ validate_and_calculate_volumes w = validate_and_calculate_volumes (setFreqOne w)
    ∧ (∀ d ∈ sanitizePlan w, d.frequency_per_week = 1) := by
  have htotal : totalFrequency w = 0 := by
    unfold totalFrequency
    apply List.sum_eq_zero
    intro x hx
    simp only [List.mem_map] at hx
    obtain ⟨d, hd, rfl⟩ := hx
    rw [h d hd]
    rfl
  have hvol : ∀ m, weeklyVolume m w = weeklyVolume m (setFreqOne w) := by
    intro m
    unfold weeklyVolume setFreqOne
    rw [List.map_map]
    apply congrArg
    apply List.map_congr_left
    intro d hd
    unfold dayMuscleVolume
    rw [h d hd]
    rfl
  refine ⟨htotal, ?_, hvol, ?_, ?_, ?_⟩
  · intro tf htf
    rw [htotal]
    omega
  · unfold volumeReport
    apply List.map_congr_left
    intro m _
    rw [hvol m]
  · unfold validate_and_calculate_volumes
    apply List.map_congr_left
    intro m _
    rw [hvol m]
  · intro d hd
    simp only [sanitizePlan, List.mem_map] at hd
    obtain ⟨d0, hd0, rfl⟩ := hd
    simp only [sanitizeDay]
    rw [h d0 hd0]
    rfl

/-- A one-day plan whose day omits frequency_per_week. -/
def noFreqPlan : RawWorkoutData :=
  ⟨[⟨some "Day A", none, [⟨some "Biceps curls", some 3, some 60⟩]⟩]⟩

theorem C10_witness :
    totalFrequency noFreqPlan = 0
    ∧ ¬ (7 : ℤ) < totalFrequency noFreqPlan
    ∧ weeklyVolume "Biceps" noFreqPlan = weeklyVolume "Biceps" (setFreqOne noFreqPlan)
    ∧ volumeReport noFreqPlan = volumeReport (setFreqOne noFreqPlan)
    ∧ validate_and_calculate_volumes noFreqPlan =
        validate_and_calculate_volumes (setFreqOne noFreqPlan) :=
  have h := C10_missing_frequency_asymmetry noFreqPlan
    (by intro d hd; simp [noFreqPlan] at hd; rw [hd])
  ⟨h.1, h.2.1 7 (by norm_num), h.2.2.1 "Biceps", h.2.2.2.1, h.2.2.2.2.1⟩
